import Mathlib

/-!
Verification of the `mainstay_connect` repository against its specification.

The development shallowly embeds the two modules the claims are about:

* `src/mainstay_connect/utils/pagination_utils.py` — the pagination and
  checkpoint engine (`extract_paginated_results`, `process_output`,
  `validate_paginated_results`, `format_output`, `serialize_output`,
  `load_paginated_checkpoints`, `remove_paginated_checkpoints`);
* `src/mainstay_connect/connect.py` — the HTTP client
  (`get_mainstay_endpoint`, `get_contact`,
  `MainstayConnect.load_paginated_checkpoints` and its inner
  `combine_pagination_results`).

Python values are modelled by `PyVal`, Python exceptions by `PyErr`, the
checkpoint directory by an association list `Store` (filename to pickled
content; its list order models the unspecified directory enumeration
order), and HTTP by an explicit `net` function.  Side effects that the
specification talks about (fetches, sleeps, checkpoint writes, reload,
purge) are recorded in an `Event` trace so that counting statements can be
made.  The unbounded `while` loop is embedded with explicit fuel; a
distinguished `PyErr.outOfFuel` marks fuel exhaustion, and every theorem
about a terminating run supplies enough fuel to reproduce it exactly.
-/

/-- A Python value as it occurs in this code base: `None`, booleans,
integers, strings, lists and string-keyed dictionaries (the shapes JSON
bodies and pickled pages take). -/
inductive PyVal where
  | none
  | bool (b : Bool)
  | int (n : Int)
  | str (s : String)
  | list (xs : List PyVal)
  | dict (kvs : List (String × PyVal))

/-- Python exceptions raised by the embedded code.  `outOfFuel` is an
artifact of the embedding of the unbounded `while` loop: it is returned
when the supplied fuel runs out, and never corresponds to a Python
behaviour. -/
inductive PyErr where
  | typeError (msg : String)
  | keyError (key : String)
  | attributeError (attr : String)
  | assertionError (msg : String)
  | httpError (status : Nat)
  | outOfFuel
deriving DecidableEq

/-- Python truthiness for the values of `PyVal` (`bool(x)`). -/
def PyVal.truthy : PyVal → Bool
  | .none => false
  | .bool b => b
  | .int n => n != 0
  | .str s => s != ""
  | .list xs => !xs.isEmpty
  | .dict kvs => !kvs.isEmpty

/-- `isinstance(v, dict)`. -/
def PyVal.isDict : PyVal → Bool
  | .dict _ => true
  | _ => false

/-- Key lookup on a dictionary value; `none` when the key is absent or the
value is not a dictionary.  (Python dictionaries have unique keys; the
association lists built here preserve that.) -/
def PyVal.dictGet : PyVal → String → Option PyVal
  | .dict kvs, k => kvs.lookup k
  | _, _ => Option.none

/-- `v[k]`: subscription, with `KeyError` on a missing key and `TypeError`
on a non-subscriptable value. -/
def py_subscript (v : PyVal) (k : String) : Except PyErr PyVal :=
  match v with
  | .dict kvs =>
    match kvs.lookup k with
    | some x => .ok x
    | Option.none => .error (.keyError k)
  | _ => .error (.typeError "object is not subscriptable")

/-- `v.get(k)`: `dict.get` with default `None`; `AttributeError` when the
receiver is not a dictionary. -/
def py_dict_get (v : PyVal) (k : String) : Except PyErr PyVal :=
  match v with
  | .dict kvs => .ok ((kvs.lookup k).getD PyVal.none)
  | _ => .error (.attributeError "get")

/-- `for x in v`: the sequence an iteration over `v` yields — list items,
the characters of a string (as one-character strings), the keys of a
dictionary; `TypeError` otherwise. -/
def py_iter : PyVal → Except PyErr (List PyVal)
  | .list xs => .ok xs
  | .str s => .ok (s.data.map (fun c => .str (String.mk [c])))
  | .dict kvs => .ok (kvs.map (fun e => PyVal.str e.1))
  | _ => .error (.typeError "object is not iterable")

/-- `str.lower()` on a character (ASCII, which covers the confirmation
token this code compares). -/
def py_lower_char (c : Char) : Char :=
  if 'A' ≤ c ∧ c ≤ 'Z' then Char.ofNat (c.toNat + 32) else c

/-- `str.lower()`. -/
def py_lower (s : String) : String := String.mk (s.data.map py_lower_char)

/-- A `requests.Response`: its HTTP status code and its parsed JSON body
(`.json()`). -/
structure HResponse where
  status : Nat
  body : PyVal

/-- The argument `process_output` receives: either a raw
`requests.Response` object (the loop body passes these with
`format=True`) or an already-parsed value (the first page is passed with
`format=False`). -/
inductive ApiOutput where
  | response (r : HResponse)
  | parsed (v : PyVal)

/-- The checkpoint directory: an association list from filename to the
pickled page stored in that file.  The list order models the directory
enumeration order, which the real filesystem leaves unspecified. -/
abbrev Store := List (String × PyVal)

/-- Observable side effects of a pagination run, recorded in order:
the initial `mainstay_api_call`, each `requests.get` on a cursor, each
`time.sleep`, each checkpoint file write, the checkpoint reload and the
purge call on the non-serialize path. -/
inductive Event where
  | fetchFirst
  | fetchNext (uri : String)
  | sleep
  | persist (filename : String)
  | loadAll
  | purge
deriving DecidableEq

/-- `Path.glob(f"{name}*{extension}")` restricted to a single `*`: a
filename matches iff it starts with `name`, ends with `extension`, and is
long enough for both to fit without overlapping. -/
def glob_match (name extension f : String) : Bool :=
  decide (name.data <+: f.data) && decide (extension.data <:+ f.data) &&
    decide (name.length + extension.length ≤ f.length)

/-- `pathlib.Path.stem`: the filename with its last suffix removed.  The
suffix starts at the last dot, and a name consisting only of a leading
dot plus suffix has no suffix to strip. -/
def path_stem (f : String) : String :=
  match f.data.reverse.dropWhile (fun c => c != '.') with
  | [] => f
  | _ :: rest => if rest.isEmpty then f else String.mk rest.reverse

/-- Writing file `fname` with content `v` into a directory: an existing
entry for the same filename is overwritten (the new content is the one
subsequently read back); the write's position in the enumeration order is
not specified by the filesystem and is modelled as last. -/
def storeWrite (st : Store) (fname : String) (v : PyVal) : Store :=
  st.filter (fun e => e.1 != fname) ++ [(fname, v)]

/-- Python dictionary assignment `d[k] = v` on an association list:
replace the value at an existing key in place, otherwise append. -/
def dict_insert (d : List (String × PyVal)) (k : String) (v : PyVal) :
    List (String × PyVal) :=
  if d.any (fun e => e.1 == k) then
    d.map (fun e => cond (e.1 == k) (k, v) e)
  else d ++ [(k, v)]

/-- The checkpoint filename `f"{name}_page-{iteration}.pickle"` used by
`serialize_output`. -/
def checkpoint_filename (name : String) (iteration : Nat) : String :=
  name ++ "_page-" ++ toString iteration ++ ".pickle"

/-- `serialize_output(output, directory, name, iteration)`
(pagination_utils.py lines 95-104): pickle the page into
`{name}_page-{iteration}.pickle` inside the directory (created when
absent — directory creation is invisible in the `Store` model). -/
def serialize_output (output : PyVal) (directory : Store) (name : String)
    (iteration : Nat) : Store :=
  storeWrite directory (checkpoint_filename name iteration) output

/-- `load_paginated_checkpoints(path, name, extension)`
(pagination_utils.py lines 107-117): glob `{name}*{extension}`, unpickle
each matching file and assign it to the dictionary under the file's stem,
in directory enumeration order. -/
def pagination_utils.load_paginated_checkpoints (path : Store)
    (name : String) (extension : String) : List (String × PyVal) :=
  (path.filter (fun e => glob_match name extension e.1)).foldl
    (fun d e => dict_insert d (path_stem e.1) e.2) []

/-- A Python generator of filenames: it yields each remaining item once;
iterating it again afterwards yields nothing. -/
structure PyGen where
  remaining : List String

/-- Iterating a generator to its end: returns everything it still had and
leaves it exhausted. -/
def PyGen.consumeAll (g : PyGen) : List String × PyGen := (g.remaining, ⟨[]⟩)

/-- `remove_paginated_checkpoints(path, name, extension)`
(pagination_utils.py lines 120-158).  `confirm` is what `input()` returns
at the `Type DELETE to delete the files.` prompt.  `path.glob(...)` at
line 144 returns a generator; line 147 logs
`sorted(file.name for file in checkpoints_for_removal)`, which iterates
that generator to exhaustion, so the `for checkpoint in
checkpoints_for_removal` deletion loop at line 151 iterates the
already-exhausted generator and yields nothing.  `path.rmdir()` succeeds
only on an empty directory; the `OSError` it raises otherwise is caught
and logged.  Returns the directory after the call and whether the
directory itself was removed. -/
def remove_paginated_checkpoints (path : Store) (name : String)
    (extension : String) (confirm : String) : Store × Bool :=
  let checkpoints_for_removal : PyGen :=
    ⟨(path.map Prod.fst).filter (fun f => glob_match name extension f)⟩
  let listing := PyGen.consumeAll checkpoints_for_removal
  let _logged_names := listing.1
  let exhausted := listing.2
  if py_lower confirm == "delete" then
    let to_delete := (PyGen.consumeAll exhausted).1
    let path' := to_delete.foldl
      (fun st f => st.filter (fun e => e.1 != f)) path
    if path'.isEmpty then (path', true) else (path', false)
  else (path, false)

/-- `assert b, msg`: `AssertionError(msg)` when `b` is false. -/
def assert_check (b : Bool) (msg : String) : Except PyErr Unit :=
  if b then .ok () else .error (.assertionError msg)

/-- The third check of `validate_paginated_results`:
`isinstance(results["results"], list)`. -/
def results_is_list (v : PyVal) : Bool :=
  match v.dictGet "results" with
  | some (.list _) => true
  | _ => false

/-- The page shape `validate_paginated_results` accepts: a dictionary
that contains a `results` key whose value is a list. -/
def good_shape (v : PyVal) : Bool :=
  v.isDict && (v.dictGet "results").isSome && results_is_list v

/-- `validate_paginated_results(results)` (pagination_utils.py lines
77-83): three asserts — the value is a `dict`, it has a `results` key,
and the value at `results` is a `list`.  A `requests.Response` object
fails the first `isinstance(results, dict)` check. -/
def validate_paginated_results (results : ApiOutput) : Except PyErr Unit :=
  match results with
  | .response _ =>
    assert_check false
      "Your results are not a dictionary. Please check the format of your returned values."
  | .parsed v =>
    match assert_check v.isDict
      "Your results are not a dictionary. Please check the format of your returned values." with
    | .error e => .error e
    | .ok () =>
      match assert_check (v.dictGet "results").isSome
        "Your dictionary does not contain a results field. Please check the format of your values." with
      | .error e => .error e
      | .ok () =>
        assert_check (results_is_list v)
          "Your results are not a list. Please check the format of your values."

/-- `requests.Response.raise_for_status()`: raises for status codes in
400-599, does nothing otherwise. -/
def raise_for_status (status : Nat) : Except PyErr Unit :=
  if 400 ≤ status ∧ status ≤ 599 then .error (.httpError status) else .ok ()

/-- `format_output(output)` (pagination_utils.py lines 86-92): return
`output.json()` on a 200, otherwise call `raise_for_status()`; on a
non-200 status outside 400-599 nothing is raised and the function falls
off its end, returning `None`.  Called on an already-parsed value it
raises `AttributeError` (`status_code` on a dict). -/
def format_output : ApiOutput → Except PyErr PyVal
  | .response r =>
    if r.status == 200 then .ok r.body
    else
      match raise_for_status r.status with
      | .error e => .error e
      | .ok () => .ok PyVal.none
  | .parsed _ => .error (.attributeError "status_code")

/-- `process_output(results, checkpoint_stem, name, iteration, format)`
(pagination_utils.py lines 66-74): optionally format, then validate, then
serialize, and return the (formatted) results together with the directory
after the write.  Validation precedes the write, so a page that fails
validation is never serialized. -/
def process_output (results : ApiOutput) (checkpoint_stem : Store)
    (name : String) (iteration : Nat) (format : Bool) :
    Except PyErr (PyVal × Store) :=
  let formatted : Except PyErr ApiOutput :=
    if format then
      match format_output results with
      | .error e => .error e
      | .ok v => .ok (ApiOutput.parsed v)
    else .ok results
  match formatted with
  | .error e => .error e
  | .ok f =>
    match validate_paginated_results f with
    | .error e => .error e
    | .ok () =>
      match f with
      | .parsed v => .ok (v, serialize_output v checkpoint_stem name iteration)
      | .response _ =>
        -- unreachable: validation rejects every Response object
        .error (.assertionError
          "Your results are not a dictionary. Please check the format of your returned values.")

/-- The `while next_URI:` loop of `extract_paginated_results`
(pagination_utils.py lines 53-59), with explicit fuel.  Each iteration:
increment the counter, sleep when `sleep_duration` is truthy, issue
`requests.get(next_URI, headers=connector.headers)` (modelled by `net`),
process the page (`format=True` validates and serializes it), then
advance the cursor with the subscript `next_results["next"]` — which
raises `KeyError` when the page has no `next` key.  Returns the trace,
the directory, and either success or the propagated exception.  At zero
fuel the loop condition is still checked, and exhaustion is reported only
on a truthy cursor. -/
def pagination_loop (net : String → HResponse) (name : String)
    (sleep_duration : ℚ) :
    Nat → Nat → PyVal → Store → List Event →
    List Event × Store × Except PyErr Unit
  | 0, _, next_URI, store, trace =>
    (trace, store, if next_URI.truthy then .error .outOfFuel else .ok ())
  | fuel + 1, iteration, next_URI, store, trace =>
    if next_URI.truthy then
      let iteration := iteration + 1
      let trace := if sleep_duration = 0 then trace else trace ++ [Event.sleep]
      match next_URI with
      | .str u =>
        let next_results := net u
        let trace := trace ++ [Event.fetchNext u]
        match process_output (.response next_results) store name iteration true with
        | .error e => (trace, store, .error e)
        | .ok (v, store') =>
          let trace := trace ++ [Event.persist (checkpoint_filename name iteration)]
          match py_subscript v "next" with
          | .ok nxt => pagination_loop net name sleep_duration fuel iteration nxt store' trace
          | .error e => (trace, store', .error e)
      | _ => (trace, store, .error (.typeError "url must be a str"))
    else (trace, store, .ok ())

/-- Lines 45-63 of `extract_paginated_results`: everything after the
logging setup.  Call `mainstay_api_call(**mainstay_kwargs)` (its return
value is `mainstay_result`; the call is the `fetchFirst` event), process
the first page with `format=False` at index 0, read the first cursor with
`mainstay_results.get("next")`, run the traversal loop, and on the
`serialize=False` path reload all checkpoints, purge them (`confirm` is
the interactive confirmation input) and return the loaded dictionary; on
the `serialize=True` path the function body has no `return`, so `None`
comes back. -/
def extract_paginated_results_run (mainstay_result : PyVal)
    (net : String → HResponse) (serialize : Bool) (name : String)
    (sleep_duration : ℚ) (confirm : String) (fuel : Nat) (store0 : Store) :
    List Event × Store × Except PyErr PyVal :=
  let trace := [Event.fetchFirst]
  match process_output (.parsed mainstay_result) store0 name 0 false with
  | .error e => (trace, store0, .error e)
  | .ok (_, store1) =>
    let trace := trace ++ [Event.persist (checkpoint_filename name 0)]
    match py_dict_get mainstay_result "next" with
    | .error e => (trace, store1, .error e)
    | .ok next_URI =>
      match pagination_loop net name sleep_duration fuel 0 next_URI store1 trace with
      | (trace, store, .error e) => (trace, store, .error e)
      | (trace, store, .ok ()) =>
        if !serialize then
          let paginated_dict :=
            pagination_utils.load_paginated_checkpoints store name ".pickle"
          let trace := trace ++ [Event.loadAll]
          let store' := (remove_paginated_checkpoints store name ".pickle" confirm).1
          (trace ++ [Event.purge], store', .ok (PyVal.dict paginated_dict))
        else (trace, store, .ok PyVal.none)

/-- Line 39 of `extract_paginated_results`:
`logger.add(Path("logs") / f"pagination_{output_name}" + "_{time}.log")`.
`/` binds tighter than `+`, so this adds a `pathlib.Path` to a `str`,
which `Path` does not support: the expression raises `TypeError`
unconditionally, before any network or filesystem activity. -/
def log_file_path (_output_name : String) : Except PyErr String :=
  .error (.typeError "unsupported operand type(s) for +: PosixPath and str")

/-- `extract_paginated_results(connector, mainstay_api_call, serialize,
checkpoint_location, output_name, sleep_duration, **mainstay_kwargs)`
(pagination_utils.py lines 13-63).  `output_name=None` or `""` is falsy
and is replaced by the `input()` answer `prompted_name`; the log-path
construction on line 39 then raises `TypeError` before the first fetch,
so the rest of the body (`extract_paginated_results_run`) is never
reached. -/
def extract_paginated_results (mainstay_result : PyVal)
    (net : String → HResponse) (serialize : Bool)
    (checkpoint_location : Store) (output_name : Option String)
    (prompted_name : String) (sleep_duration : ℚ) (confirm : String)
    (fuel : Nat) : List Event × Store × Except PyErr PyVal :=
  let name := match output_name with
    | some s => if s == "" then prompted_name else s
    | Option.none => prompted_name
  match log_file_path name with
  | .error e => ([], checkpoint_location, .error e)
  | .ok _ =>
    extract_paginated_results_run mainstay_result net serialize name
      sleep_duration confirm fuel checkpoint_location

/-- The request `get_mainstay_endpoint` hands to `requests.get`: the
concatenated URL and the query parameters after None-filtering. -/
structure HttpRequest where
  url : String
  params : List (String × PyVal)

/-- The query-parameter construction of `get_mainstay_endpoint`
(connect.py line 158):
`{key: value for key, value in kwargs.items() if value is not None}`. -/
def drop_none_params (kwargs : List (String × Option PyVal)) :
    List (String × PyVal) :=
  kwargs.filterMap (fun e => e.2.map (fun v => (e.1, v)))

/-- `MainstayConnect.get_mainstay_endpoint(endpoint, **kwargs)`
(connect.py lines 128-166): build `base_url + endpoint`, drop the `None`
kwargs, issue the GET (`net url params`), and parse: a non-200 status
calls `raise_for_status()` — which raises only for 400-599 — and any path
that does not raise returns `response.json()`.  The value also exposes
the transmitted request for the filter-parameter statements. -/
def get_mainstay_endpoint
    (net : String → List (String × PyVal) → HResponse)
    (base_url endpoint : String) (kwargs : List (String × Option PyVal)) :
    HttpRequest × Except PyErr PyVal :=
  let url := base_url ++ endpoint
  let params := drop_none_params kwargs
  let response := net url params
  (⟨url, params⟩,
    if response.status != 200 then
      match raise_for_status response.status with
      | .error e => .error e
      | .ok () => .ok response.body
    else .ok response.body)

/-- `MainstayConnect.get_contact(id, **kwargs)` (connect.py lines
168-193): format `f"contacts/{id}/"` and delegate to
`get_mainstay_endpoint`. -/
def get_contact (net : String → List (String × PyVal) → HResponse)
    (base_url id : String) (kwargs : List (String × Option PyVal)) :
    HttpRequest × Except PyErr PyVal :=
  get_mainstay_endpoint net base_url ("contacts/" ++ id ++ "/") kwargs

/-- The inner `combine_pagination_results(pagination_list)` of
`MainstayConnect.load_paginated_checkpoints` (connect.py lines 394-400):
`[result for page_id in pagination_list for result in
pagination_list[page_id]["results"]]` — iterate the mapping in its
enumeration order, subscript each page at `results`, and concatenate
whatever iterating that value yields. -/
def combine_results_from (acc : List PyVal) :
    List (String × PyVal) → Except PyErr (List PyVal)
  | [] => .ok acc
  | e :: rest =>
    match py_subscript e.2 "results" with
    | .error err => .error err
    | .ok rs =>
      match py_iter rs with
      | .error err => .error err
      | .ok items => combine_results_from (acc ++ items) rest

def combine_pagination_results (pagination_list : List (String × PyVal)) :
    Except PyErr (List PyVal) :=
  combine_results_from [] pagination_list

/-- The result of `MainstayConnect.load_paginated_checkpoints`: the raw
mapping, or the `pd.DataFrame` built from the combined records (modelled
as its row list). -/
inductive LoadedResult where
  | raw (d : List (String × PyVal))
  | frame (rows : List PyVal)

/-- `MainstayConnect.load_paginated_checkpoints(path, name, raw,
extension)` (connect.py lines 373-403): load the checkpoints through the
utils module; with `raw=True` return the mapping as-is, otherwise combine
every page's `results` and wrap the flattened records in a DataFrame. -/
def MainstayConnect.load_paginated_checkpoints (path : Store)
    (name : String) (raw : Bool) (extension : String) :
    Except PyErr LoadedResult :=
  let loaded := pagination_utils.load_paginated_checkpoints path name extension
  if raw then .ok (.raw loaded)
  else
    match combine_pagination_results loaded with
    | .error e => .error e
    | .ok rows => .ok (.frame rows)

/-! ### Simulated page chains

`chain_ok net c ps cfinal` says: following cursor `c` through `net`
fetches exactly the `(uri, page)` entries of `ps` in order — every entry
is served with status 200, passes shape validation and carries a `next`
key — and the `next` value of the last entry is `cfinal`.  `chain_writes`
and `chain_trace` are the checkpoint writes and the event trace such a
prefix produces. -/

def chain_ok (net : String → HResponse) :
    PyVal → List (String × PyVal) → PyVal → Prop
  | c, [], cfinal => c = cfinal
  | c, (u, p) :: rest, cfinal =>
    c = PyVal.str u ∧ u ≠ "" ∧ net u = ⟨200, p⟩ ∧ good_shape p = true ∧
    ∃ c', py_subscript p "next" = Except.ok c' ∧ chain_ok net c' rest cfinal

def chain_writes (name : String) : Nat → Store → List (String × PyVal) → Store
  | _, store, [] => store
  | it, store, (_, p) :: rest =>
    chain_writes name (it + 1) (serialize_output p store name (it + 1)) rest

def chain_trace (d : ℚ) (name : String) : Nat → List (String × PyVal) → List Event
  | _, [] => []
  | it, (u, _) :: rest =>
    (if d = 0 then [] else [Event.sleep]) ++
      [Event.fetchNext u, Event.persist (checkpoint_filename name (it + 1))] ++
      chain_trace d name (it + 1) rest

/-! ### Counting fetches, sleeps and checkpoint writes in a trace -/

/-- Number of HTTP fetches in a trace: the initial `mainstay_api_call`
plus every `requests.get` on a cursor. -/
def count_fetches (t : List Event) : Nat :=
  (t.filter (fun e => match e with
    | .fetchFirst => true
    | .fetchNext _ => true
    | _ => false)).length

/-- Number of `time.sleep` calls in a trace. -/
def count_sleeps (t : List Event) : Nat :=
  (t.filter (fun e => match e with | .sleep => true | _ => false)).length

/-- The checkpoint filenames written during a trace, in write order. -/
def persisted_files (t : List Event) : List String :=
  t.filterMap (fun e => match e with | .persist f => some f | _ => Option.none)

/-- The `results` list of a well-shaped page (used to state what the
combine step returns). -/
def page_results (p : PyVal) : List PyVal :=
  match p.dictGet "results" with
  | some (.list rs) => rs
  | _ => []

/-! ### Concrete fixtures used by witnesses and counterexamples -/

/-- A well-shaped first page whose `next` cursor points at `"u1"`. -/
def sample_page0 : PyVal :=
  .dict [("results", .list [.int 1]), ("next", .str "u1")]

/-- A well-shaped page whose `next` key is present and `None`. -/
def sample_page1 : PyVal :=
  .dict [("results", .list [.int 2]), ("next", PyVal.none)]

/-- A well-shaped page with no `next` key at all. -/
def sample_page1_missing : PyVal := .dict [("results", .list [.int 2])]

/-- A page that fails shape validation: no `results` key. -/
def sample_page_bad : PyVal := .dict [("nope", PyVal.none)]

/-- A network that answers every GET with status 200 and body `p`. -/
def sample_net (p : PyVal) : String → HResponse := fun _ => ⟨200, p⟩

/-! ### Helper lemmas about validation and page processing -/

lemma validate_parsed_ok_iff (v : PyVal) :
    validate_paginated_results (.parsed v) = .ok () ↔ good_shape v = true := by
  cases h1 : v.isDict <;> cases h2 : (v.dictGet "results").isSome <;>
    cases h3 : results_is_list v <;>
      simp [validate_paginated_results, assert_check, good_shape, h1, h2, h3]

lemma validate_parsed_err (v : PyVal) (h : good_shape v = false) :
    ∃ msg, validate_paginated_results (.parsed v) = .error (.assertionError msg) := by
  cases h1 : v.isDict <;> cases h2 : (v.dictGet "results").isSome <;>
    cases h3 : results_is_list v <;>
      simp [validate_paginated_results, assert_check, good_shape, h1, h2, h3] <;>
        simp [good_shape, h1, h2, h3] at h

lemma process_output_parsed_ok (v : PyVal) (st : Store) (name : String)
    (it : Nat) (h : good_shape v = true) :
    process_output (.parsed v) st name it false =
      .ok (v, serialize_output v st name it) := by
  have hv := (validate_parsed_ok_iff v).mpr h
  simp [process_output, hv]

lemma process_output_parsed_err (v : PyVal) (st : Store) (name : String)
    (it : Nat) (h : good_shape v = false) :
    ∃ msg, process_output (.parsed v) st name it false =
      .error (.assertionError msg) := by
  obtain ⟨msg, hv⟩ := validate_parsed_err v h
  exact ⟨msg, by simp [process_output, hv]⟩

lemma process_output_response_ok (p : PyVal) (st : Store) (name : String)
    (it : Nat) (h : good_shape p = true) :
    process_output (.response ⟨200, p⟩) st name it true =
      .ok (p, serialize_output p st name it) := by
  have hv := (validate_parsed_ok_iff p).mpr h
  simp [process_output, format_output, hv]

lemma process_output_response_err (p : PyVal) (st : Store) (name : String)
    (it : Nat) (h : good_shape p = false) :
    ∃ msg, process_output (.response ⟨200, p⟩) st name it true =
      .error (.assertionError msg) := by
  obtain ⟨msg, hv⟩ := validate_parsed_err p h
  exact ⟨msg, by simp [process_output, format_output, hv]⟩

lemma pagination_loop_falsy (net : String → HResponse) (name : String)
    (d : ℚ) (fuel it : Nat) (c : PyVal) (store : Store) (trace : List Event)
    (h : c.truthy = false) :
    pagination_loop net name d fuel it c store trace = (trace, store, .ok ()) := by
  cases fuel <;> simp [pagination_loop, h]

lemma pagination_loop_chain (net : String → HResponse) (name : String)
    (d : ℚ) (ps : List (String × PyVal)) (cfinal : PyVal) (f : Nat) :
    ∀ (c : PyVal) (it : Nat) (store : Store) (trace : List Event),
    chain_ok net c ps cfinal →
    pagination_loop net name d (ps.length + f) it c store trace =
      pagination_loop net name d f (it + ps.length) cfinal
        (chain_writes name it store ps) (trace ++ chain_trace d name it ps) := by
  induction ps with
  | nil =>
    intro c it store trace h
    simp [chain_ok] at h
    subst h
    simp [chain_writes, chain_trace]
  | cons hd rest ih =>
    intro c it store trace h
    obtain ⟨u, p⟩ := hd
    obtain ⟨hc, hu, hnet, hgood, c', hnext, hrest⟩ := h
    subst hc
    have hlen : rest.length + 1 + f = (rest.length + f) + 1 := by omega
    rw [List.length_cons, hlen]
    have htruthy : (PyVal.str u).truthy = true := by
      simp [PyVal.truthy, hu]
    simp only [pagination_loop, htruthy, if_true]
    rw [hnet, process_output_response_ok p store name (it + 1) hgood]
    dsimp only
    rw [hnext]
    dsimp only
    rw [ih c' (it + 1) (serialize_output p store name (it + 1)) _ hrest]
    have harith : it + 1 + rest.length = it + (rest.length + 1) := by omega
    rw [harith]
    by_cases hd0 : d = 0 <;>
      simp [chain_writes, chain_trace, hd0, List.append_assoc]

lemma pagination_loop_missing_next (net : String → HResponse) (name : String)
    (d : ℚ) (f it : Nat) (u : String) (plast : PyVal) (store : Store)
    (trace : List Event) (hu : u ≠ "") (hnetu : net u = ⟨200, plast⟩)
    (hgood : good_shape plast = true)
    (hnone : py_subscript plast "next" = .error (.keyError "next")) :
    pagination_loop net name d (f + 1) it (.str u) store trace =
      (trace ++ (if d = 0 then [] else [Event.sleep]) ++
        [Event.fetchNext u, Event.persist (checkpoint_filename name (it + 1))],
       serialize_output plast store name (it + 1),
       .error (.keyError "next")) := by
  have htruthy : (PyVal.str u).truthy = true := by simp [PyVal.truthy, hu]
  simp only [pagination_loop, htruthy, if_true]
  rw [hnetu, process_output_response_ok plast store name (it + 1) hgood]
  dsimp only
  rw [hnone]
  by_cases hd0 : d = 0 <;> simp [hd0, List.append_assoc]

lemma pagination_loop_bad_page (net : String → HResponse) (name : String)
    (d : ℚ) (f it : Nat) (u : String) (pbad : PyVal) (store : Store)
    (trace : List Event) (hu : u ≠ "") (hnetu : net u = ⟨200, pbad⟩)
    (hbad : good_shape pbad = false) :
    ∃ msg, pagination_loop net name d (f + 1) it (.str u) store trace =
      (trace ++ (if d = 0 then [] else [Event.sleep]) ++ [Event.fetchNext u],
       store, .error (.assertionError msg)) := by
  have htruthy : (PyVal.str u).truthy = true := by simp [PyVal.truthy, hu]
  obtain ⟨msg, hp⟩ := process_output_response_err pbad store name (it + 1) hbad
  refine ⟨msg, ?_⟩
  simp only [pagination_loop, htruthy, if_true]
  rw [hnetu, hp]
  by_cases hd0 : d = 0 <;> simp [hd0, List.append_assoc]

lemma run_first_bad (p0 : PyVal) (net : String → HResponse) (ser : Bool)
    (name : String) (d : ℚ) (confirm : String) (fuel : Nat) (store0 : Store)
    (h : good_shape p0 = false) :
    ∃ msg, extract_paginated_results_run p0 net ser name d confirm fuel store0 =
      ([Event.fetchFirst], store0, .error (.assertionError msg)) := by
  obtain ⟨msg, hp⟩ := process_output_parsed_err p0 store0 name 0 h
  refine ⟨msg, ?_⟩
  simp only [extract_paginated_results_run]
  rw [hp]

lemma run_chain_clean_true (p0 : PyVal) (net : String → HResponse)
    (name : String) (d : ℚ) (confirm : String) (store0 : Store)
    (ps : List (String × PyVal)) (cfinal c : PyVal) (f : Nat)
    (h0 : good_shape p0 = true) (hc : py_dict_get p0 "next" = Except.ok c)
    (hch : chain_ok net c ps cfinal) (hfin : cfinal.truthy = false) :
    extract_paginated_results_run p0 net true name d confirm (ps.length + f) store0 =
      ([Event.fetchFirst, Event.persist (checkpoint_filename name 0)] ++
         chain_trace d name 0 ps,
       chain_writes name 0 (serialize_output p0 store0 name 0) ps,
       .ok PyVal.none) := by
  simp only [extract_paginated_results_run]
  rw [process_output_parsed_ok p0 store0 name 0 h0]
  dsimp only
  rw [hc]
  dsimp only
  rw [pagination_loop_chain net name d ps cfinal f c 0 _ _ hch,
    pagination_loop_falsy net name d f (0 + ps.length) cfinal _ _ hfin]
  simp

lemma run_chain_clean_false (p0 : PyVal) (net : String → HResponse)
    (name : String) (d : ℚ) (confirm : String) (store0 : Store)
    (ps : List (String × PyVal)) (cfinal c : PyVal) (f : Nat)
    (h0 : good_shape p0 = true) (hc : py_dict_get p0 "next" = Except.ok c)
    (hch : chain_ok net c ps cfinal) (hfin : cfinal.truthy = false) :
    extract_paginated_results_run p0 net false name d confirm (ps.length + f) store0 =
      ([Event.fetchFirst, Event.persist (checkpoint_filename name 0)] ++
         chain_trace d name 0 ps ++ [Event.loadAll, Event.purge],
       (remove_paginated_checkpoints
         (chain_writes name 0 (serialize_output p0 store0 name 0) ps)
         name ".pickle" confirm).1,
       .ok (PyVal.dict (pagination_utils.load_paginated_checkpoints
         (chain_writes name 0 (serialize_output p0 store0 name 0) ps)
         name ".pickle"))) := by
  simp only [extract_paginated_results_run]
  rw [process_output_parsed_ok p0 store0 name 0 h0]
  dsimp only
  rw [hc]
  dsimp only
  rw [pagination_loop_chain net name d ps cfinal f c 0 _ _ hch,
    pagination_loop_falsy net name d f (0 + ps.length) cfinal _ _ hfin]
  simp

lemma run_chain_missing_next (p0 : PyVal) (net : String → HResponse)
    (ser : Bool) (name : String) (d : ℚ) (confirm : String) (store0 : Store)
    (ps : List (String × PyVal)) (c : PyVal) (u : String) (plast : PyVal)
    (f : Nat) (h0 : good_shape p0 = true)
    (hc : py_dict_get p0 "next" = Except.ok c)
    (hch : chain_ok net c ps (.str u)) (hu : u ≠ "")
    (hnetu : net u = ⟨200, plast⟩) (hgood : good_shape plast = true)
    (hnone : py_subscript plast "next" = .error (.keyError "next")) :
    extract_paginated_results_run p0 net ser name d confirm
        (ps.length + (f + 1)) store0 =
      ([Event.fetchFirst, Event.persist (checkpoint_filename name 0)] ++
         chain_trace d name 0 ps ++
         ((if d = 0 then [] else [Event.sleep]) ++
          [Event.fetchNext u,
           Event.persist (checkpoint_filename name (ps.length + 1))]),
       serialize_output plast
         (chain_writes name 0 (serialize_output p0 store0 name 0) ps)
         name (ps.length + 1),
       .error (.keyError "next")) := by
  simp only [extract_paginated_results_run]
  rw [process_output_parsed_ok p0 store0 name 0 h0]
  dsimp only
  rw [hc]
  dsimp only
  rw [pagination_loop_chain net name d ps (.str u) (f + 1) c 0 _ _ hch,
    pagination_loop_missing_next net name d f (0 + ps.length) u plast _ _
      hu hnetu hgood hnone]
  simp [List.append_assoc]

lemma run_chain_bad_page (p0 : PyVal) (net : String → HResponse)
    (ser : Bool) (name : String) (d : ℚ) (confirm : String) (store0 : Store)
    (ps : List (String × PyVal)) (c : PyVal) (u : String) (pbad : PyVal)
    (f : Nat) (h0 : good_shape p0 = true)
    (hc : py_dict_get p0 "next" = Except.ok c)
    (hch : chain_ok net c ps (.str u)) (hu : u ≠ "")
    (hnetu : net u = ⟨200, pbad⟩) (hbad : good_shape pbad = false) :
    ∃ msg, extract_paginated_results_run p0 net ser name d confirm
        (ps.length + (f + 1)) store0 =
      ([Event.fetchFirst, Event.persist (checkpoint_filename name 0)] ++
         chain_trace d name 0 ps ++
         ((if d = 0 then [] else [Event.sleep]) ++ [Event.fetchNext u]),
       chain_writes name 0 (serialize_output p0 store0 name 0) ps,
       .error (.assertionError msg)) := by
  obtain ⟨msg, hloop⟩ := pagination_loop_bad_page net name d f (0 + ps.length)
    u pbad (chain_writes name 0 (serialize_output p0 store0 name 0) ps)
    ([Event.fetchFirst] ++ [Event.persist (checkpoint_filename name 0)] ++
      chain_trace d name 0 ps) hu hnetu hbad
  refine ⟨msg, ?_⟩
  simp only [extract_paginated_results_run]
  rw [process_output_parsed_ok p0 store0 name 0 h0]
  dsimp only
  rw [hc]
  dsimp only
  rw [pagination_loop_chain net name d ps (.str u) (f + 1) c 0 _ _ hch]
  rw [show [Event.fetchFirst] ++ [Event.persist (checkpoint_filename name 0)] ++
      chain_trace d name 0 ps =
      ([Event.fetchFirst] ++ [Event.persist (checkpoint_filename name 0)]) ++
      chain_trace d name 0 ps from by simp] at hloop
  rw [hloop]
  simp [List.append_assoc]

lemma count_fetches_append (s t : List Event) :
    count_fetches (s ++ t) = count_fetches s + count_fetches t := by
  simp [count_fetches, List.filter_append]

lemma count_sleeps_append (s t : List Event) :
    count_sleeps (s ++ t) = count_sleeps s + count_sleeps t := by
  simp [count_sleeps, List.filter_append]

lemma persisted_files_append (s t : List Event) :
    persisted_files (s ++ t) = persisted_files s ++ persisted_files t := by
  simp [persisted_files, List.filterMap_append]

lemma chain_trace_cons (d : ℚ) (name : String) (it : Nat) (u : String)
    (p : PyVal) (rest : List (String × PyVal)) :
    chain_trace d name it ((u, p) :: rest) =
      ((if d = 0 then [] else [Event.sleep]) ++
        [Event.fetchNext u, Event.persist (checkpoint_filename name (it + 1))]) ++
        chain_trace d name (it + 1) rest := by
  simp [chain_trace, List.append_assoc]

lemma count_fetches_chain_trace (d : ℚ) (name : String) :
    ∀ (it : Nat) (ps : List (String × PyVal)),
    count_fetches (chain_trace d name it ps) = ps.length := by
  intro it ps
  induction ps generalizing it with
  | nil => simp [chain_trace, count_fetches]
  | cons hd rest ih =>
    obtain ⟨u, p⟩ := hd
    rw [chain_trace_cons, count_fetches_append, ih (it + 1)]
    by_cases hd0 : d = 0 <;> simp [hd0, count_fetches] <;> omega

lemma count_sleeps_chain_trace (d : ℚ) (name : String) (hd0 : d ≠ 0) :
    ∀ (it : Nat) (ps : List (String × PyVal)),
    count_sleeps (chain_trace d name it ps) = ps.length := by
  intro it ps
  induction ps generalizing it with
  | nil => simp [chain_trace, count_sleeps]
  | cons hd rest ih =>
    obtain ⟨u, p⟩ := hd
    rw [chain_trace_cons, count_sleeps_append, ih (it + 1)]
    simp [hd0, count_sleeps]
    omega

lemma persisted_files_chain_trace (d : ℚ) (name : String) :
    ∀ (it : Nat) (ps : List (String × PyVal)),
    persisted_files (chain_trace d name it ps) =
      (List.range' (it + 1) ps.length).map (checkpoint_filename name) := by
  intro it ps
  induction ps generalizing it with
  | nil => simp [chain_trace, persisted_files]
  | cons hd rest ih =>
    obtain ⟨u, p⟩ := hd
    rw [chain_trace_cons, persisted_files_append, ih (it + 1)]
    by_cases hd0 : d = 0 <;>
      simp [hd0, persisted_files, List.range'_succ]

lemma chain_trace_no_loadAll (d : ℚ) (name : String) :
    ∀ (it : Nat) (ps : List (String × PyVal)),
    Event.loadAll ∉ chain_trace d name it ps := by
  intro it ps
  induction ps generalizing it with
  | nil => simp [chain_trace]
  | cons hd rest ih =>
    obtain ⟨u, p⟩ := hd
    rw [chain_trace_cons]
    by_cases hd0 : d = 0
    · subst hd0; simp [ih (it + 1)]
    · simp [hd0, ih (it + 1)]

lemma chain_trace_no_purge (d : ℚ) (name : String) :
    ∀ (it : Nat) (ps : List (String × PyVal)),
    Event.purge ∉ chain_trace d name it ps := by
  intro it ps
  induction ps generalizing it with
  | nil => simp [chain_trace]
  | cons hd rest ih =>
    obtain ⟨u, p⟩ := hd
    rw [chain_trace_cons]
    by_cases hd0 : d = 0
    · subst hd0; simp [ih (it + 1)]
    · simp [hd0, ih (it + 1)]

/-! ### Checkpoint store lemmas -/

lemma lookup_map_insert (d : List (String × PyVal)) (k : String) (v : PyVal)
    (hd : d.any (fun e => e.1 == k) = true) :
    (d.map (fun e => cond (e.1 == k) (k, v) e)).lookup k = some v := by
  induction d with
  | nil => simp at hd
  | cons e rest ih =>
    rcases e with ⟨a, b⟩
    by_cases hk : a = k
    · subst hk
      simp [List.lookup]
    · have hbeq : (a == k) = false := by simp [hk]
      have hbeq2 : (k == a) = false := by simp [Ne.symm hk]
      have hrest : rest.any (fun e => e.1 == k) = true := by
        rw [List.any_cons] at hd
        simpa [hbeq] using hd
      simp only [List.map_cons, hbeq, Bool.cond_false, List.lookup, hbeq2]
      exact ih hrest

lemma lookup_none_of_not_any (d : List (String × PyVal)) (k : String)
    (hd : d.any (fun e => e.1 == k) = false) :
    d.lookup k = Option.none := by
  induction d with
  | nil => rfl
  | cons e rest ih =>
    rcases e with ⟨a, b⟩
    rw [List.any_cons, Bool.or_eq_false_iff] at hd
    have hbeq : (k == a) = false := by
      have h1 := hd.1
      simp only [beq_eq_false_iff_ne] at h1 ⊢
      exact fun hkk => h1 hkk.symm
    simp only [List.lookup, hbeq]
    exact ih hd.2

lemma lookup_append_of_none (d₁ d₂ : List (String × PyVal)) (k : String)
    (h : d₁.lookup k = Option.none) :
    (d₁ ++ d₂).lookup k = d₂.lookup k := by
  induction d₁ with
  | nil => rfl
  | cons e rest ih =>
    rcases e with ⟨a, b⟩
    cases hbeq : (k == a) with
    | false =>
      simp only [List.lookup, hbeq] at h
      simp only [List.cons_append, List.lookup, hbeq]
      exact ih h
    | true =>
      simp only [List.lookup, hbeq] at h
      simp at h

lemma lookup_dict_insert_self (d : List (String × PyVal)) (k : String)
    (v : PyVal) : (dict_insert d k v).lookup k = some v := by
  by_cases hany : d.any (fun e => e.1 == k) = true
  · rw [dict_insert, if_pos hany]
    exact lookup_map_insert d k v hany
  · have hf : d.any (fun e => e.1 == k) = false := by
      simp only [Bool.not_eq_true] at hany
      exact hany
    rw [dict_insert, if_neg (by simp [hf])]
    rw [lookup_append_of_none d [(k, v)] k (lookup_none_of_not_any d k hf)]
    simp [List.lookup]

lemma glob_match_checkpoint (name : String) (it : Nat) :
    glob_match name ".pickle" (checkpoint_filename name it) = true := by
  have h1 : name.data <+: (checkpoint_filename name it).data :=
    ⟨"_page-".data ++ (toString it).data ++ ".pickle".data, by
      simp [checkpoint_filename, String.data_append, List.append_assoc]⟩
  have h2 : ".pickle".data <:+ (checkpoint_filename name it).data :=
    ⟨name.data ++ "_page-".data ++ (toString it).data, by
      simp [checkpoint_filename, String.data_append, List.append_assoc]⟩
  have h3 : name.length + ".pickle".length ≤
      (checkpoint_filename name it).length := by
    simp [checkpoint_filename, String.length_append]
    omega
  simp [glob_match, h1, h2, h3]

lemma path_stem_pickle (s : String) (hs : s.data ≠ []) :
    path_stem (s ++ ".pickle") = s := by
  have hdrop : List.dropWhile (fun c => c != '.')
      ((s ++ ".pickle").data.reverse) = '.' :: s.data.reverse := by
    rw [String.data_append, List.reverse_append,
      show (".pickle".data).reverse = ['e','l','k','c','i','p','.'] from rfl]
    simp [List.dropWhile]
  unfold path_stem
  rw [hdrop]
  have hne : (s.data.reverse).isEmpty = false := by
    simp [List.isEmpty_iff, hs]
  simp only [hne, Bool.false_eq_true, if_false, List.reverse_reverse]

lemma path_stem_checkpoint (name : String) (it : Nat) :
    path_stem (checkpoint_filename name it) = name ++ "_page-" ++ toString it := by
  have h : checkpoint_filename name it =
      (name ++ "_page-" ++ toString it) ++ ".pickle" := rfl
  rw [h, path_stem_pickle]
  intro hcontra
  rw [String.data_append, String.data_append] at hcontra
  simp [List.append_eq_nil] at hcontra

/-! ### Flattening and filter-parameter lemmas -/

lemma good_shape_elim (p : PyVal) (h : good_shape p = true) :
    ∃ kvs rs, p = PyVal.dict kvs ∧
      kvs.lookup "results" = some (PyVal.list rs) := by
  cases p <;> simp [good_shape, PyVal.isDict] at h
  case dict kvs =>
    obtain ⟨-, h3⟩ := h
    rw [results_is_list] at h3
    split at h3
    case h_1 rs heq =>
      exact ⟨kvs, rs, rfl, by simpa [PyVal.dictGet] using heq⟩
    case h_2 => simp at h3

lemma combine_results_from_ok (ps : List (String × PyVal)) :
    ∀ acc, (∀ e ∈ ps, good_shape e.2 = true) →
    combine_results_from acc ps =
      .ok (acc ++ (ps.map (fun e => page_results e.2)).flatten) := by
  induction ps with
  | nil => intro acc _; simp [combine_results_from]
  | cons e rest ih =>
    intro acc h
    obtain ⟨kvs, rs, he, hr⟩ := good_shape_elim e.2 (h e (by simp))
    have hsub : py_subscript e.2 "results" = .ok (PyVal.list rs) := by
      rw [he]
      simp [py_subscript, hr]
    have hiter : py_iter (PyVal.list rs) = .ok rs := rfl
    have hpr : page_results e.2 = rs := by
      rw [he]
      simp [page_results, PyVal.dictGet, hr]
    rw [combine_results_from, hsub]
    dsimp only
    rw [hiter]
    dsimp only
    rw [ih (acc ++ rs) (fun x hx => h x (by simp [hx]))]
    simp [hpr, List.append_assoc]

lemma drop_none_lookup_none_of_not_mem (kwargs : List (String × Option PyVal))
    (k : String) (h : k ∉ kwargs.map Prod.fst) :
    (drop_none_params kwargs).lookup k = Option.none := by
  induction kwargs with
  | nil => rfl
  | cons e rest ih =>
    obtain ⟨a, ov⟩ := e
    simp only [List.map_cons, List.mem_cons] at h
    push_neg at h
    obtain ⟨hka, hrest⟩ := h
    have hbeq : (k == a) = false := by simp [hka]
    cases ov with
    | none => simpa [drop_none_params] using ih hrest
    | some v =>
      simp only [drop_none_params, List.filterMap_cons, Option.map_some]
      simp only [List.lookup, hbeq]
      simpa [drop_none_params] using ih hrest

lemma drop_none_lookup_of_none_mem (kwargs : List (String × Option PyVal))
    (k : String) (hnodup : (kwargs.map Prod.fst).Nodup)
    (hmem : (k, Option.none) ∈ kwargs) :
    (drop_none_params kwargs).lookup k = Option.none := by
  induction kwargs with
  | nil => simp at hmem
  | cons e rest ih =>
    obtain ⟨a, ov⟩ := e
    rw [List.map_cons, List.nodup_cons] at hnodup
    rcases List.mem_cons.mp hmem with heq | hmem'
    · injection heq with h1 h2
      subst h1
      subst h2
      have hnot : k ∉ rest.map Prod.fst := hnodup.1
      simpa [drop_none_params] using
        drop_none_lookup_none_of_not_mem rest k hnot
    · have hka : a ≠ k := by
        intro hak
        exact hnodup.1 (hak ▸ (List.mem_map.mpr ⟨(k, Option.none), hmem', rfl⟩))
      have hbeq : (k == a) = false := by simp [Ne.symm hka]
      cases ov with
      | none => simpa [drop_none_params] using ih hnodup.2 hmem'
      | some v =>
        simp only [drop_none_params, List.filterMap_cons, Option.map_some]
        simp only [List.lookup, hbeq]
        simpa [drop_none_params] using ih hnodup.2 hmem'

lemma drop_none_lookup_of_some_mem (kwargs : List (String × Option PyVal))
    (k : String) (v : PyVal) (hnodup : (kwargs.map Prod.fst).Nodup)
    (hmem : (k, some v) ∈ kwargs) :
    (drop_none_params kwargs).lookup k = some v := by
  induction kwargs with
  | nil => simp at hmem
  | cons e rest ih =>
    obtain ⟨a, ov⟩ := e
    rw [List.map_cons, List.nodup_cons] at hnodup
    rcases List.mem_cons.mp hmem with heq | hmem'
    · injection heq with h1 h2
      subst h1
      subst h2
      simp [drop_none_params, List.lookup]
    · have hka : a ≠ k := by
        intro hak
        exact hnodup.1 (hak ▸ (List.mem_map.mpr ⟨(k, some v), hmem', rfl⟩))
      have hbeq : (k == a) = false := by simp [Ne.symm hka]
      cases ov with
      | none => simpa [drop_none_params] using ih hnodup.2 hmem'
      | some w =>
        simp only [drop_none_params, List.filterMap_cons, Option.map_some]
        simp only [List.lookup, hbeq]
        simpa [drop_none_params] using ih hnodup.2 hmem'

/-! ### Claim theorems -/

/-- C9: for every invocation of `extract_paginated_results` (any
arguments, any `output_name`), the log-path construction on line 39
concatenates a `pathlib.Path` to a `str` with `+`, so the call raises
`TypeError` during setup — the returned trace is empty, so no fetch, no
validation and no checkpoint write has occurred, and the checkpoint
directory is untouched. -/
theorem extract_always_raises_typeerror (mainstay_result : PyVal)
    (net : String → HResponse) (serialize : Bool) (checkpoint_location : Store)
    (output_name : Option String) (prompted_name : String)
    (sleep_duration : ℚ) (confirm : String) (fuel : Nat) :
    extract_paginated_results mainstay_result net serialize checkpoint_location
      output_name prompted_name sleep_duration confirm fuel =
      ([], checkpoint_location,
       .error (.typeError "unsupported operand type(s) for +: PosixPath and str")) :=
  rfl

/-- C2 (code bug): with one checkpoint file on disk the glob does select
it for deletion, but because `sorted(...)` in the log line exhausts the
glob generator before the deletion loop runs, confirming with "DELETE"
deletes nothing — the file is still there and the directory is not
removed — exactly as when the user refuses with "no". -/
theorem remove_checkpoints_deletes_nothing :
    (([("run_page-0.pickle", sample_page1)].map Prod.fst).filter
        (fun f => glob_match "run" ".pickle" f) = ["run_page-0.pickle"]) ∧
    remove_paginated_checkpoints [("run_page-0.pickle", sample_page1)]
      "run" ".pickle" "DELETE" =
      ([("run_page-0.pickle", sample_page1)], false) ∧
    remove_paginated_checkpoints [("run_page-0.pickle", sample_page1)]
      "run" ".pickle" "no" =
      ([("run_page-0.pickle", sample_page1)], false) :=
  ⟨rfl, rfl, rfl⟩

/-- C6: persisting any page into any directory via `serialize_output`
at `(name, index)` and reloading via `load_paginated_checkpoints` yields
the identical page under the key `{name}_page-{index}` — the full
structural equality, hence the same `results` content and `next` value. -/
theorem checkpoint_roundtrip (page : PyVal) (st0 : Store) (name : String)
    (it : Nat) :
    (pagination_utils.load_paginated_checkpoints
        (serialize_output page st0 name it) name ".pickle").lookup
      (name ++ "_page-" ++ toString it) = some page := by
  unfold pagination_utils.load_paginated_checkpoints serialize_output storeWrite
  rw [List.filter_append]
  have hm : List.filter (fun e => glob_match name ".pickle" e.1)
      [(checkpoint_filename name it, page)] =
      [(checkpoint_filename name it, page)] := by
    simp [List.filter, glob_match_checkpoint]
  rw [hm, List.foldl_append]
  simp only [List.foldl_cons, List.foldl_nil]
  rw [path_stem_checkpoint]
  exact lookup_dict_insert_self _ _ page

/-- C5 (counterexample): a 404 response to `get_mainstay_endpoint` or
`get_contact` is raised as an HTTP error, and so is a 400 — there is no
"not found" or validation-error sentinel anywhere in the client. -/
theorem get_endpoint_raises_on_404 :
    (get_mainstay_endpoint (fun _ _ => ⟨404, PyVal.none⟩)
      "https://api.admithub.com/" "contacts/123/" []).2 =
      .error (.httpError 404) ∧
    (get_contact (fun _ _ => ⟨404, PyVal.none⟩)
      "https://api.admithub.com/" "123" []).2 = .error (.httpError 404) ∧
    (get_mainstay_endpoint (fun _ _ => ⟨400, PyVal.none⟩)
      "https://api.admithub.com/" "contacts/"
      [("custom", some (PyVal.str "x"))]).2 = .error (.httpError 400) :=
  ⟨rfl, rfl, rfl⟩

/-- C5 (amended): a 200 response returns the parsed JSON body; every
status in 400-599 — including 404 and 400 — is raised to the caller via
`raise_for_status` with no retry and no sentinel handling; a non-200
status outside 400-599 falls through and returns the parsed body; and
`get_contact` delegates to `get_mainstay_endpoint` on
`contacts/{id}/` unchanged. -/
theorem get_endpoint_status_handling
    (net : String → List (String × PyVal) → HResponse)
    (base_url endpoint : String) (kwargs : List (String × Option PyVal)) :
    ((net (base_url ++ endpoint) (drop_none_params kwargs)).status = 200 →
      (get_mainstay_endpoint net base_url endpoint kwargs).2 =
        .ok (net (base_url ++ endpoint) (drop_none_params kwargs)).body) ∧
    (∀ s, (net (base_url ++ endpoint) (drop_none_params kwargs)).status = s →
      400 ≤ s → s ≤ 599 →
      (get_mainstay_endpoint net base_url endpoint kwargs).2 =
        .error (.httpError s)) ∧
    ((net (base_url ++ endpoint) (drop_none_params kwargs)).status ≠ 200 →
      ¬(400 ≤ (net (base_url ++ endpoint) (drop_none_params kwargs)).status ∧
        (net (base_url ++ endpoint) (drop_none_params kwargs)).status ≤ 599) →
      (get_mainstay_endpoint net base_url endpoint kwargs).2 =
        .ok (net (base_url ++ endpoint) (drop_none_params kwargs)).body) ∧
    (∀ id, get_contact net base_url id kwargs =
      get_mainstay_endpoint net base_url ("contacts/" ++ id ++ "/") kwargs) := by
  refine ⟨?_, ?_, ?_, fun id => rfl⟩
  · intro h200
    simp [get_mainstay_endpoint, h200]
  · intro s hs h4 h5
    have h200 : s ≠ 200 := by omega
    simp [get_mainstay_endpoint, hs, h200, raise_for_status, h4, h5]
  · intro hne hout
    simp [get_mainstay_endpoint, hne, raise_for_status, hout]

/-- Witness for C5: statuses 200, 503 and 204 exercise the three
branches at concrete inputs. -/
theorem get_endpoint_status_handling_witness :
    (get_mainstay_endpoint (fun _ _ => ⟨200, PyVal.int 7⟩) "b" "e" []).2 =
      .ok (PyVal.int 7) ∧
    (get_mainstay_endpoint (fun _ _ => ⟨503, PyVal.none⟩) "b" "e" []).2 =
      .error (.httpError 503) ∧
    (get_mainstay_endpoint (fun _ _ => ⟨204, PyVal.int 9⟩) "b" "e" []).2 =
      .ok (PyVal.int 9) :=
  ⟨(get_endpoint_status_handling (fun _ _ => ⟨200, PyVal.int 7⟩) "b" "e" []).1 rfl,
   (get_endpoint_status_handling (fun _ _ => ⟨503, PyVal.none⟩) "b" "e" []).2.1
     503 rfl (by norm_num) (by norm_num),
   (get_endpoint_status_handling (fun _ _ => ⟨204, PyVal.int 9⟩) "b" "e" []).2.2.1
     (by norm_num) (by norm_num)⟩

/-- C1 (counterexample): a two-page run whose second page lacks the
`next` key entirely does not end the loop cleanly — the subscript
`next_results["next"]` raises `KeyError` (after that page has been
validated and persisted), contradicting "the loop ends without
raising". -/
theorem pagination_missing_next_raises :
    extract_paginated_results_run sample_page0 (sample_net sample_page1_missing)
        true "run" 1 "w" 2 [] =
      ([Event.fetchFirst, Event.persist "run_page-0.pickle", Event.sleep,
        Event.fetchNext "u1", Event.persist "run_page-1.pickle"],
       [("run_page-0.pickle", sample_page0),
        ("run_page-1.pickle", sample_page1_missing)],
       .error (.keyError "next")) :=
  rfl

/-- C1 (amended): in the traversal loop of `extract_paginated_results`
(lines 45-63; the log-setup `TypeError` of C9 aside), no further fetch is
issued once the current cursor is falsy, and the loop ends without
raising when the first page's `next` is absent or falsy, or when a later
page maps `next` to a present falsy value; but a page after the first
that lacks the `next` key altogether ends the run by raising `KeyError`
from the subscript `next_results["next"]` — after that page is validated
and persisted, and with no further fetch issued. -/
theorem pagination_termination_behavior :
    (∀ (p0 : PyVal) (net : String → HResponse) (name : String) (d : ℚ)
       (confirm : String) (store0 : Store) (f : Nat) (c : PyVal),
      good_shape p0 = true → py_dict_get p0 "next" = Except.ok c →
      c.truthy = false →
      extract_paginated_results_run p0 net true name d confirm f store0 =
        ([Event.fetchFirst, Event.persist (checkpoint_filename name 0)],
         serialize_output p0 store0 name 0, .ok PyVal.none)) ∧
    (∀ (p0 : PyVal) (net : String → HResponse) (name : String) (d : ℚ)
       (confirm : String) (store0 : Store) (ps : List (String × PyVal))
       (cfinal c : PyVal) (f : Nat),
      good_shape p0 = true → py_dict_get p0 "next" = Except.ok c →
      chain_ok net c ps cfinal → cfinal.truthy = false →
      extract_paginated_results_run p0 net true name d confirm
          (ps.length + f) store0 =
        ([Event.fetchFirst, Event.persist (checkpoint_filename name 0)] ++
           chain_trace d name 0 ps,
         chain_writes name 0 (serialize_output p0 store0 name 0) ps,
         .ok PyVal.none)) ∧
    (∀ (p0 : PyVal) (net : String → HResponse) (ser : Bool) (name : String)
       (d : ℚ) (confirm : String) (store0 : Store)
       (ps : List (String × PyVal)) (c : PyVal) (u : String) (plast : PyVal)
       (f : Nat),
      good_shape p0 = true → py_dict_get p0 "next" = Except.ok c →
      chain_ok net c ps (.str u) → u ≠ "" → net u = ⟨200, plast⟩ →
      good_shape plast = true →
      py_subscript plast "next" = .error (.keyError "next") →
      extract_paginated_results_run p0 net ser name d confirm
          (ps.length + (f + 1)) store0 =
        ([Event.fetchFirst, Event.persist (checkpoint_filename name 0)] ++
           chain_trace d name 0 ps ++
           ((if d = 0 then [] else [Event.sleep]) ++
            [Event.fetchNext u,
             Event.persist (checkpoint_filename name (ps.length + 1))]),
         serialize_output plast
           (chain_writes name 0 (serialize_output p0 store0 name 0) ps)
           name (ps.length + 1),
         .error (.keyError "next"))) := by
  refine ⟨?_, ?_, ?_⟩
  · intro p0 net name d confirm store0 f c h0 hc hfin
    have h := run_chain_clean_true p0 net name d confirm store0 [] c c f h0 hc
      rfl hfin
    simpa [chain_trace, chain_writes] using h
  · intro p0 net name d confirm store0 ps cfinal c f h0 hc hch hfin
    exact run_chain_clean_true p0 net name d confirm store0 ps cfinal c f h0
      hc hch hfin
  · intro p0 net ser name d confirm store0 ps c u plast f h0 hc hch hu hn hg hk
    exact run_chain_missing_next p0 net ser name d confirm store0 ps c u plast
      f h0 hc hch hu hn hg hk

/-- Witness for C1: the missing-`next` branch at the concrete two-page
chain of `pagination_missing_next_raises`, hypotheses discharged by
computation. -/
theorem pagination_termination_behavior_witness :
    good_shape sample_page0 = true ∧
    extract_paginated_results_run sample_page0 (sample_net sample_page1_missing)
        true "run" 1 "w"
        (([] : List (String × PyVal)).length + (0 + 1)) [] =
      ([Event.fetchFirst, Event.persist (checkpoint_filename "run" 0)] ++
         chain_trace 1 "run" 0 ([] : List (String × PyVal)) ++
         ((if (1 : ℚ) = 0 then [] else [Event.sleep]) ++
          [Event.fetchNext "u1",
           Event.persist (checkpoint_filename "run"
             (([] : List (String × PyVal)).length + 1))]),
       serialize_output sample_page1_missing
         (chain_writes "run" 0 (serialize_output sample_page0 [] "run" 0)
           ([] : List (String × PyVal)))
         "run" (([] : List (String × PyVal)).length + 1),
       .error (.keyError "next")) :=
  ⟨by decide,
   pagination_termination_behavior.2.2 sample_page0
     (sample_net sample_page1_missing) true "run" 1 "w" [] []
     (PyVal.str "u1") "u1" sample_page1_missing 0
     (by decide) rfl rfl (by decide) rfl (by decide) rfl⟩

/-- C3 (code bug): on the code as written, every call of
`extract_paginated_results` performs zero fetches (the setup `TypeError`
fires first); the traversal core (lines 45-63), run on a simulated chain
of N pages in which pages 0..N-2 carry a non-empty `next` cursor and
page N-1 maps `next` to a falsy value, does perform exactly N fetches,
sleep exactly N-1 times (for non-zero sleep_duration) and persist the
pages at indices 0..N-1 — the claimed counts hold of the algorithm the
setup bug makes unreachable. -/
theorem pagination_fetch_counts :
    (∀ (mainstay_result : PyVal) (net : String → HResponse) (serialize : Bool)
       (checkpoint_location : Store) (output_name : Option String)
       (prompted_name : String) (sleep_duration : ℚ) (confirm : String)
       (fuel : Nat),
      count_fetches (extract_paginated_results mainstay_result net serialize
        checkpoint_location output_name prompted_name sleep_duration confirm
        fuel).1 = 0) ∧
    (∀ (p0 : PyVal) (net : String → HResponse) (name : String) (d : ℚ)
       (confirm : String) (store0 : Store) (ps : List (String × PyVal))
       (cfinal c : PyVal) (f : Nat),
      good_shape p0 = true → py_dict_get p0 "next" = Except.ok c →
      chain_ok net c ps cfinal → cfinal.truthy = false → d ≠ 0 →
      count_fetches (extract_paginated_results_run p0 net true name d confirm
        (ps.length + f) store0).1 = ps.length + 1 ∧
      count_sleeps (extract_paginated_results_run p0 net true name d confirm
        (ps.length + f) store0).1 = ps.length ∧
      persisted_files (extract_paginated_results_run p0 net true name d confirm
        (ps.length + f) store0).1 =
        (List.range (ps.length + 1)).map (checkpoint_filename name)) := by
  refine ⟨fun _ _ _ _ _ _ _ _ _ => rfl, ?_⟩
  intro p0 net name d confirm store0 ps cfinal c f h0 hc hch hfin hd0
  rw [run_chain_clean_true p0 net name d confirm store0 ps cfinal c f h0 hc
    hch hfin]
  dsimp only
  refine ⟨?_, ?_, ?_⟩
  · rw [count_fetches_append, count_fetches_chain_trace]
    simp [count_fetches]
    omega
  · rw [count_sleeps_append, count_sleeps_chain_trace d name hd0]
    simp [count_sleeps]
  · rw [persisted_files_append, persisted_files_chain_trace]
    rw [List.range_eq_range', List.range'_succ, List.map_cons]
    simp [persisted_files]

/-- Witness for C3: the core counts at a concrete two-page chain
(2 fetches, 1 sleep, pages 0 and 1 persisted). -/
theorem pagination_fetch_counts_witness :
    good_shape sample_page0 = true ∧ ((1 : ℚ) ≠ 0) ∧
    (count_fetches (extract_paginated_results_run sample_page0
        (sample_net sample_page1) true "run" 1 "w"
        ([("u1", sample_page1)].length + 1) []).1 =
      [("u1", sample_page1)].length + 1 ∧
     count_sleeps (extract_paginated_results_run sample_page0
        (sample_net sample_page1) true "run" 1 "w"
        ([("u1", sample_page1)].length + 1) []).1 =
      [("u1", sample_page1)].length ∧
     persisted_files (extract_paginated_results_run sample_page0
        (sample_net sample_page1) true "run" 1 "w"
        ([("u1", sample_page1)].length + 1) []).1 =
      (List.range ([("u1", sample_page1)].length + 1)).map
        (checkpoint_filename "run")) :=
  ⟨by decide, by norm_num,
   pagination_fetch_counts.2 sample_page0 (sample_net sample_page1) "run" 1
     "w" [] [("u1", sample_page1)] PyVal.none (PyVal.str "u1") 1
     (by decide) rfl ⟨rfl, by decide, rfl, by decide, PyVal.none, rfl, rfl⟩
     (by decide) (by norm_num)⟩

/-- C4: page-shape validation accepts a page iff it is a dictionary with
a `results` key holding a list; on any violation `process_output` fails
before `serialize_output` runs, so the malformed page is never
checkpointed; in the traversal core a malformed first page aborts the
run right after the initial fetch with the directory untouched, and a
malformed later page aborts it right after that page's fetch — no
persist event for it, no further fetch, no recovery. -/
theorem page_validation_spec :
    (∀ v : PyVal,
      validate_paginated_results (.parsed v) = .ok () ↔ good_shape v = true) ∧
    (∀ (v : PyVal) (st : Store) (name : String) (it : Nat),
      good_shape v = false →
      ∃ msg, process_output (.parsed v) st name it false =
        .error (.assertionError msg)) ∧
    (∀ (p : PyVal) (st : Store) (name : String) (it : Nat),
      good_shape p = false →
      ∃ msg, process_output (.response ⟨200, p⟩) st name it true =
        .error (.assertionError msg)) ∧
    (∀ (p0 : PyVal) (net : String → HResponse) (ser : Bool) (name : String)
       (d : ℚ) (confirm : String) (fuel : Nat) (store0 : Store),
      good_shape p0 = false →
      ∃ msg, extract_paginated_results_run p0 net ser name d confirm fuel store0 =
        ([Event.fetchFirst], store0, .error (.assertionError msg))) ∧
    (∀ (p0 : PyVal) (net : String → HResponse) (ser : Bool) (name : String)
       (d : ℚ) (confirm : String) (store0 : Store)
       (ps : List (String × PyVal)) (c : PyVal) (u : String) (pbad : PyVal)
       (f : Nat),
      good_shape p0 = true → py_dict_get p0 "next" = Except.ok c →
      chain_ok net c ps (.str u) → u ≠ "" → net u = ⟨200, pbad⟩ →
      good_shape pbad = false →
      ∃ msg, extract_paginated_results_run p0 net ser name d confirm
          (ps.length + (f + 1)) store0 =
        ([Event.fetchFirst, Event.persist (checkpoint_filename name 0)] ++
           chain_trace d name 0 ps ++
           ((if d = 0 then [] else [Event.sleep]) ++ [Event.fetchNext u]),
         chain_writes name 0 (serialize_output p0 store0 name 0) ps,
         .error (.assertionError msg))) :=
  ⟨validate_parsed_ok_iff,
   process_output_parsed_err,
   fun p st name it h => process_output_response_err p st name it h,
   fun p0 net ser name d confirm fuel store0 h =>
     run_first_bad p0 net ser name d confirm fuel store0 h,
   fun p0 net ser name d confirm store0 ps c u pbad f h0 hc hch hu hn hb =>
     run_chain_bad_page p0 net ser name d confirm store0 ps c u pbad f h0 hc
       hch hu hn hb⟩

/-- Witness for C4: the malformed page `{"nope": None}` is rejected, and
a run whose second page is malformed aborts right after that fetch. -/
theorem page_validation_spec_witness :
    good_shape sample_page_bad = false ∧
    (∃ msg, process_output (.parsed sample_page_bad) [] "run" 0 false =
      .error (.assertionError msg)) ∧
    (∃ msg, extract_paginated_results_run sample_page0
        (sample_net sample_page_bad) true "run" 1 "w"
        (([] : List (String × PyVal)).length + (0 + 1)) [] =
      ([Event.fetchFirst, Event.persist (checkpoint_filename "run" 0)] ++
         chain_trace 1 "run" 0 ([] : List (String × PyVal)) ++
         ((if (1 : ℚ) = 0 then [] else [Event.sleep]) ++
          [Event.fetchNext "u1"]),
       chain_writes "run" 0 (serialize_output sample_page0 [] "run" 0)
         ([] : List (String × PyVal)),
       .error (.assertionError msg))) :=
  ⟨by decide,
   page_validation_spec.2.1 sample_page_bad [] "run" 0 (by decide),
   page_validation_spec.2.2.2.2 sample_page0 (sample_net sample_page_bad)
     true "run" 1 "w" [] [] (PyVal.str "u1") "u1" sample_page_bad 0
     (by decide) rfl rfl (by decide) rfl (by decide)⟩

/-- C10 (amended): on the `serialize=True` path the traversal core of
`extract_paginated_results` returns `None` — the body has no `return`
on that path — with no reload and no purge attempted and the written
checkpoint files left in the directory; the claim fails on the full
function only because the setup `TypeError` of C9 fires first. -/
theorem serialize_true_returns_none
    (p0 : PyVal) (net : String → HResponse) (name : String) (d : ℚ)
    (confirm : String) (store0 : Store) (ps : List (String × PyVal))
    (cfinal c : PyVal) (f : Nat)
    (h0 : good_shape p0 = true) (hc : py_dict_get p0 "next" = Except.ok c)
    (hch : chain_ok net c ps cfinal) (hfin : cfinal.truthy = false) :
    (extract_paginated_results_run p0 net true name d confirm
      (ps.length + f) store0).2.2 = .ok PyVal.none ∧
    Event.loadAll ∉ (extract_paginated_results_run p0 net true name d confirm
      (ps.length + f) store0).1 ∧
    Event.purge ∉ (extract_paginated_results_run p0 net true name d confirm
      (ps.length + f) store0).1 ∧
    (extract_paginated_results_run p0 net true name d confirm
      (ps.length + f) store0).2.1 =
      chain_writes name 0 (serialize_output p0 store0 name 0) ps := by
  rw [run_chain_clean_true p0 net name d confirm store0 ps cfinal c f h0 hc
    hch hfin]
  refine ⟨rfl, ?_, ?_, rfl⟩
  · simp [chain_trace_no_loadAll d name 0 ps]
  · simp [chain_trace_no_purge d name 0 ps]

/-- Witness for C10: the single-page serialize-true run returns `None`
with the page file in the store and no reload or purge event. -/
theorem serialize_true_returns_none_witness :
    good_shape sample_page1 = true ∧
    ((extract_paginated_results_run sample_page1 (sample_net sample_page1)
        true "run" 1 "w"
        (([] : List (String × PyVal)).length + 1) []).2.2 = .ok PyVal.none ∧
     Event.loadAll ∉ (extract_paginated_results_run sample_page1
        (sample_net sample_page1) true "run" 1 "w"
        (([] : List (String × PyVal)).length + 1) []).1 ∧
     Event.purge ∉ (extract_paginated_results_run sample_page1
        (sample_net sample_page1) true "run" 1 "w"
        (([] : List (String × PyVal)).length + 1) []).1 ∧
     (extract_paginated_results_run sample_page1 (sample_net sample_page1)
        true "run" 1 "w"
        (([] : List (String × PyVal)).length + 1) []).2.1 =
       chain_writes "run" 0 (serialize_output sample_page1 [] "run" 0)
         ([] : List (String × PyVal))) :=
  ⟨by decide,
   serialize_true_returns_none sample_page1 (sample_net sample_page1) "run" 1
     "w" [] [] PyVal.none PyVal.none 1 (by decide) rfl rfl (by decide)⟩

/-- C10 (counterexample): with `serialize=True` the full
`extract_paginated_results` does not return `None` — it raises the setup
`TypeError` before writing anything. -/
theorem serialize_true_full_call_raises :
    extract_paginated_results sample_page0 (sample_net sample_page1) true []
        (some "run") "p" 1 "del" 5 =
      ([], [],
       .error (.typeError "unsupported operand type(s) for +: PosixPath and str")) ∧
    (extract_paginated_results sample_page0 (sample_net sample_page1) true []
        (some "run") "p" 1 "del" 5).2.2 ≠ .ok PyVal.none :=
  ⟨rfl, fun h => Except.noConfusion h⟩

/-- C7: the combine step of `MainstayConnect.load_paginated_checkpoints`
with `raw=False` concatenates every page's `results` sequence in the
order the loaded mapping enumerates its keys, and wraps the flattened
records in the DataFrame result. -/
theorem combine_concatenates_results :
    ∀ (plist : List (String × PyVal)),
      (∀ e ∈ plist, good_shape e.2 = true) →
      combine_pagination_results plist =
        .ok ((plist.map (fun e => page_results e.2)).flatten) ∧
      (∀ (path : Store) (name ext : String),
        pagination_utils.load_paginated_checkpoints path name ext = plist →
        MainstayConnect.load_paginated_checkpoints path name false ext =
          .ok (.frame ((plist.map (fun e => page_results e.2)).flatten))) := by
  intro plist h
  have hcomb : combine_pagination_results plist =
      .ok ((plist.map (fun e => page_results e.2)).flatten) := by
    have hgo := combine_results_from_ok plist [] h
    simpa [combine_pagination_results] using hgo
  refine ⟨hcomb, ?_⟩
  intro path name ext hload
  simp [MainstayConnect.load_paginated_checkpoints, hload, hcomb]

/-- Witness for C7: the two-page mapping with results `[{"id":1}]` and
`[{"id":2}]` flattens to exactly those two records in order. -/
theorem combine_concatenates_results_witness :
    combine_pagination_results
      [("a_page-0", .dict [("results", .list [.dict [("id", PyVal.int 1)]])]),
       ("a_page-1", .dict [("results", .list [.dict [("id", PyVal.int 2)]])])] =
      .ok [PyVal.dict [("id", PyVal.int 1)], PyVal.dict [("id", PyVal.int 2)]] :=
  (combine_concatenates_results
    [("a_page-0", .dict [("results", .list [.dict [("id", PyVal.int 1)]])]),
     ("a_page-1", .dict [("results", .list [.dict [("id", PyVal.int 2)]])])]
    (by decide)).1

/-- C8: in `get_mainstay_endpoint`, every kwarg whose value is `None` is
dropped — its key does not occur in the transmitted query parameters —
while every kwarg with a non-None value is transmitted with exactly that
value; the parameters handed to `requests.get` are precisely
`drop_none_params kwargs`. -/
theorem none_params_dropped :
    ∀ (kwargs : List (String × Option PyVal)),
      ((kwargs.map Prod.fst).Nodup →
        (∀ k, (k, Option.none) ∈ kwargs →
          (drop_none_params kwargs).lookup k = Option.none) ∧
        (∀ k v, (k, some v) ∈ kwargs →
          (drop_none_params kwargs).lookup k = some v)) ∧
      (∀ (net : String → List (String × PyVal) → HResponse)
         (base endpoint : String),
        (get_mainstay_endpoint net base endpoint kwargs).1.params =
          drop_none_params kwargs) :=
  fun kwargs =>
    ⟨fun hnd =>
      ⟨fun k hk => drop_none_lookup_of_none_mem kwargs k hnd hk,
       fun k v hk => drop_none_lookup_of_some_mem kwargs k v hnd hk⟩,
     fun _ _ _ => rfl⟩

/-- Witness for C8: `page=None` is never transmitted; `page=2` is
transmitted as exactly 2. -/
theorem none_params_dropped_witness :
    (([("page", Option.none), ("status", some (PyVal.str "ok"))].map
        Prod.fst).Nodup ∧
      (drop_none_params
        [("page", Option.none), ("status", some (PyVal.str "ok"))]).lookup
        "page" = Option.none) ∧
    (drop_none_params [("page", some (PyVal.int 2))]).lookup "page" =
      some (PyVal.int 2) :=
  ⟨⟨by decide,
    ((none_params_dropped
      [("page", Option.none), ("status", some (PyVal.str "ok"))]).1
      (by decide)).1 "page" (by simp)⟩,
   ((none_params_dropped [("page", some (PyVal.int 2))]).1 (by decide)).2
     "page" (PyVal.int 2) (by simp)⟩
